import Mathlib

/-!
# Verification development for the `artists` service

A shallow embedding of the request handlers of `gostream-official/artists`
(`impl/funcs/*`) together with the properties proved about them.

Conventions of the embedding

* Go `string` values are Lean `String`s. `len(s) == 0` only asks whether the
  string is empty, so it is rendered as `s.length == 0`.
* Go slices are Lean `List`s; `len` and `range` cannot tell the nil slice from
  an empty one, and both are `[]` here.
* `uint32` values are naturals below `2 ^ 32`; `int` is the 64-bit signed
  integer, an `Int` between `-2 ^ 63` and `2 ^ 63 - 1`.
* A `float32` is its 32 bit IEEE-754 pattern; the handlers only ever compare
  one with zero.
* The document store (`pkg/store`) is a parameter: an arbitrary state machine
  whose four operations may answer anything. Every handler threads the store
  state and a log of the store calls it issued.
* Logging (`log.*`) and the request correlation id (`parallel.NewContext`) are
  not observable in the response or in the store calls and are left out.
-/

namespace Artists

/-! ## Go primitives -/

/-- Go `error` values met by the handlers: either a value handed back by a
library or by the store driver, or the result of `fmt.Errorf` on a constant
message. -/
inductive GoError where
  | external (msg : String)
  | Errorf (msg : String)
  deriving DecidableEq, Repr

/-- IEEE-754 single precision number, represented by its bit pattern. -/
structure float32 where
  bits : Nat
  deriving DecidableEq, Repr

/-- Go comparison `x != 0` on a `float32`: false exactly on `+0` and `-0`
(all bits below the sign bit clear). -/
def float32.neZero (x : float32) : Bool :=
  x.bits % 2 ^ 31 != 0

/-- Go `interface{}` restricted to the dynamic types the handlers store in one. -/
inductive GoValue where
  | string (s : String)
  | strings (ss : List String)
  | uint32 (n : Nat)
  | float32 (x : float32)
  deriving DecidableEq, Repr

/-- Reading `m[key]` from a Go `map[string]string`: the zero value `""` when the
key is absent. -/
def mapIndex (m : String → Option String) (key : String) : String :=
  (m key).getD ""

namespace unicode

/-- Go `unicode.IsSpace`: the code points with the Unicode White_Space property. -/
def IsSpace (c : Char) : Bool :=
  let n := c.toNat
  n == 0x09 || n == 0x0A || n == 0x0B || n == 0x0C || n == 0x0D || n == 0x20 ||
  n == 0x85 || n == 0xA0 || n == 0x1680 || (0x2000 ≤ n && n ≤ 0x200A) ||
  n == 0x2028 || n == 0x2029 || n == 0x202F || n == 0x205F || n == 0x3000

end unicode

namespace strings

/-- Go `strings.TrimSpace`: the string without its leading and trailing white
space. -/
def TrimSpace (s : String) : String :=
  String.mk ((s.data.dropWhile unicode.IsSpace).reverse.dropWhile unicode.IsSpace).reverse

end strings

namespace strconv

/-- Value of a run of ASCII decimal digits, most significant first. -/
def digitsValue (ds : List Char) : Nat :=
  ds.foldl (fun acc c => acc * 10 + (c.toNat - 48)) 0

/-- An ASCII decimal digit. -/
def isDigit (c : Char) : Bool :=
  48 ≤ c.toNat && c.toNat ≤ 57

/-- Go `strconv.Atoi` for a 64-bit `int`: an optional sign followed by one or
more decimal digits. The result is the value and the error; on a syntax error
the value is `0`, on a range error it is the nearest representable bound. -/
def Atoi (s : String) : Int × Option GoError :=
  let syntaxErr : Int × Option GoError :=
    (0, some (GoError.external "strconv.Atoi: invalid syntax"))
  match s.data with
  | [] => syntaxErr
  | c :: rest =>
    let neg := c == '-'
    let ds := if c == '-' || c == '+' then rest else c :: rest
    if ds.isEmpty then syntaxErr
    else if ds.all isDigit then
      let n : Int := digitsValue ds
      let v : Int := if neg then -n else n
      if v < -(2 : Int) ^ 63 then
        (-(2 : Int) ^ 63, some (GoError.external "strconv.Atoi: value out of range"))
      else if (2 : Int) ^ 63 - 1 < v then
        ((2 : Int) ^ 63 - 1, some (GoError.external "strconv.Atoi: value out of range"))
      else (v, none)
    else syntaxErr

/-- Go conversion `uint32(x)` of an `int`: the value modulo `2 ^ 32`. -/
def toUint32 (x : Int) : Nat :=
  (x % (2 : Int) ^ 32).toNat

end strconv

/-! ## `impl/models` -/

namespace models

/-- Some artist statistics. -/
structure ArtistStats where
  Popularity : float32
  deriving DecidableEq, Repr

/-- The data model definition for an artist. -/
structure ArtistInfo where
  ID : String
  Name : String
  Genres : List String
  Followers : Nat
  Stats : ArtistStats
  deriving DecidableEq, Repr

end models

/-! ## `pkg/store/query` -/

namespace query

/-- Modelled from the spec: the predicate node type of `pkg/store/query` is
not among the source files. Section 3 gives its two variants, the equality
leaf with a key and a value and the conjunction of an ordered sequence of
child nodes. -/
inductive IQuery where
  | FilterOperatorEq (Key : String) (Value : GoValue)
  | FilterOperatorAnd (And : List IQuery)

/-- Modelled from the spec: the query envelope of `pkg/store/query`, an
optional root predicate and an unsigned result limit whose zero value means
unrestricted. -/
structure Filter where
  Root : Option IQuery := none
  Limit : Nat := 0

/-- Modelled from the spec: the mutation node type of `pkg/store/query`, with
the field-set variant holding the assignments as the key and value pairs of
the map. -/
inductive IUpdate where
  | UpdateOperatorSet (Set : List (String × GoValue))
  deriving DecidableEq, Repr

/-- Modelled from the spec: the update envelope of `pkg/store/query`, whose
root mutation is always present. -/
structure Update where
  Root : IUpdate
  deriving DecidableEq, Repr

end query

/-! ## `pkg/api` -/

namespace api

/-- Modelled from the spec: the request type of `pkg/api` is not among the
source files; the handlers read its body, path parameters and query
parameters. -/
structure APIRequest where
  Body : String := ""
  PathParameters : String → Option String := fun _ => none
  QueryParameters : String → Option String := fun _ => none

/-- Modelled from the spec: the response type of `pkg/api`, a status code and
a body of any type; `none` is the nil body. The type of the bodies a handler
produces is a parameter. -/
structure APIResponse (β : Type) where
  StatusCode : Nat
  Body : Option β := none

end api

namespace http

def StatusOK : Nat := 200
def StatusAccepted : Nat := 202
def StatusNoContent : Nat := 204
def StatusBadRequest : Nat := 400
def StatusNotFound : Nat := 404
def StatusConflict : Nat := 409
def StatusInternalServerError : Nat := 500

end http

/-! ## `pkg/store` -/

namespace store

/-- Modelled from the spec: the typed collection accessor of `pkg/store` is not
among the source files. Its four operations are taken as arbitrary transitions
of a store state `σ`: nothing is assumed about what they answer. -/
structure MongoStore (σ : Type) where
  FindItems : query.Filter → σ → Except GoError (List models.ArtistInfo) × σ
  UpdateItem : query.Filter → query.Update → σ → Except GoError Nat × σ
  CreateItem : models.ArtistInfo → σ → Option GoError × σ
  DeleteItem : String → σ → Except GoError Nat × σ

/-- Modelled from the spec: the connection handle of `pkg/store`, from which an
accessor is bound to a (database, collection) pair. -/
structure MongoInstance (σ : Type) where
  collection : String → String → MongoStore σ

/-- Modelled from the spec: `store.NewMongoStore`, binding the connection
handle to a database and a collection. -/
def NewMongoStore {σ : Type} (inst : MongoInstance σ) (database collection : String) :
    MongoStore σ :=
  inst.collection database collection

/-- One store operation as issued by a handler, with its arguments. -/
inductive Call where
  | FindItems (filter : query.Filter)
  | UpdateItem (filter : query.Filter) (update : query.Update)
  | CreateItem (item : models.ArtistInfo)
  | DeleteItem (id : String)

/-- The store state together with the log of the calls issued so far. -/
structure World (σ : Type) where
  db : σ
  calls : List Call := []

/-- Running `store.FindItems(&filter)`: the call is logged and the store moves on. -/
def findItems {σ : Type} (s : MongoStore σ) (filter : query.Filter) (w : World σ) :
    Except GoError (List models.ArtistInfo) × World σ :=
  let r := s.FindItems filter w.db
  (r.1, { db := r.2, calls := w.calls ++ [Call.FindItems filter] })

/-- Running `store.UpdateItem(&filter, &update)`. -/
def updateItem {σ : Type} (s : MongoStore σ) (filter : query.Filter) (update : query.Update)
    (w : World σ) : Except GoError Nat × World σ :=
  let r := s.UpdateItem filter update w.db
  (r.1, { db := r.2, calls := w.calls ++ [Call.UpdateItem filter update] })

/-- Running `store.CreateItem(item)`. -/
def createItem {σ : Type} (s : MongoStore σ) (item : models.ArtistInfo) (w : World σ) :
    Option GoError × World σ :=
  let r := s.CreateItem item w.db
  (r.1, { db := r.2, calls := w.calls ++ [Call.CreateItem item] })

/-- Running `store.DeleteItem(id)`. -/
def deleteItem {σ : Type} (s : MongoStore σ) (id : String) (w : World σ) :
    Except GoError Nat × World σ :=
  let r := s.DeleteItem id w.db
  (r.1, { db := r.2, calls := w.calls ++ [Call.DeleteItem id] })

end store

/-- How a Go function call ends: it returns a value, or it panics. -/
inductive Outcome (α : Type) where
  | returned (a : α)
  | panicked (msg : String)

/-! ## `pkg/arrays` -/

namespace arrays

/-- Modelled from the spec: `arrays.Map` of `pkg/arrays` is not among the source
files and the specification does not describe it; it is taken to be the
element-wise map that its name and its two call sites indicate, which builds
a new slice and does not write to its argument. -/
def Map {α β : Type} (xs : List α) (f : α → β) : List β :=
  xs.map f

end arrays

/-! ## `impl/inject` -/

namespace inject

/-- The injector object for this service. -/
structure Injector (σ : Type) where
  MongoInstance : store.MongoInstance σ

end inject

/-! ## `impl/funcs/getartists` -/

namespace getartists

/-- Creates a query filter from the given API request. -/
def CreateFilterFromQueryParameters (request : api.APIRequest) : query.Filter :=
  let andFilter : List query.IQuery := []
  -- var realLimit int; var realLimitErr error
  let limitOk := (request.QueryParameters "limit").isSome
  let parsed : Int × Option GoError :=
    match request.QueryParameters "limit" with
    | some limit => strconv.Atoi limit
    | none => (0, none)
  let realLimit := parsed.1
  let realLimitErr := parsed.2
  let andFilter : List query.IQuery :=
    match request.QueryParameters "name" with
    | some artistName =>
      andFilter ++ [query.IQuery.FilterOperatorEq "name" (GoValue.string artistName)]
    | none => andFilter
  let resultFilter : query.Filter := {}
  let resultFilter : query.Filter :=
    if limitOk && realLimitErr.isNone then
      { resultFilter with Limit := strconv.toUint32 realLimit }
    else resultFilter
  let resultFilter : query.Filter :=
    if andFilter.length > 0 then
      { resultFilter with Root := some (query.IQuery.FilterOperatorAnd andFilter) }
    else resultFilter
  resultFilter

end getartists

/-! ## `impl/funcs/getartist` -/

namespace getartist

/-- The bodies the handler responds with. -/
inductive ResponseBody where
  | artist (item : models.ArtistInfo)
  deriving DecidableEq, Repr

/-- Attempts to cast the input object to the endpoint injector. The object is
`none` when its dynamic type is not `inject.Injector`. -/
def GetSafeInjector {σ : Type} (object : Option (inject.Injector σ)) :
    Except GoError (inject.Injector σ) :=
  match object with
  | none => Except.error (GoError.Errorf "getartist: failed to deduce injector")
  | some injector => Except.ok injector

/-- The router handler for: Get Track By ID. -/
def Handler {σ : Type} (request : api.APIRequest) (object : Option (inject.Injector σ))
    (w : store.World σ) : Outcome (api.APIResponse ResponseBody) × store.World σ :=
  match GetSafeInjector object with
  | Except.error _ => (Outcome.returned { StatusCode := http.StatusInternalServerError }, w)
  | Except.ok injector =>
    let store := store.NewMongoStore injector.MongoInstance "gostream" "artists"
    let filter : query.Filter :=
      { Root := some (query.IQuery.FilterOperatorEq "_id"
          (GoValue.string (mapIndex request.PathParameters "id"))),
        Limit := 10 }
    match Artists.store.findItems store filter w with
    | (Except.error _, w) =>
      (Outcome.returned { StatusCode := http.StatusInternalServerError }, w)
    | (Except.ok items, w) =>
      if items.length == 0 then
        (Outcome.returned { StatusCode := http.StatusNotFound }, w)
      else
        match items[0]? with
        | none => (Outcome.panicked "index out of range [0]", w)
        | some resultItem =>
          (Outcome.returned
            { StatusCode := http.StatusOK, Body := some (ResponseBody.artist resultItem) }, w)

end getartist

/-! ## `impl/funcs/createartist` -/

namespace createartist

/-- The request body for the artist statistics. -/
structure CreateArtistStatsRequestBody where
  Popularity : float32
  deriving DecidableEq, Repr

/-- The request body for the create artist endpoint. -/
structure CreateArtistRequestBody where
  Name : String
  Genres : List String
  Followers : Nat
  Stats : CreateArtistStatsRequestBody
  deriving DecidableEq, Repr

/-- The error response body for the create artist endpoint. -/
structure CreateArtistErrorResponseBody where
  Message : String
  deriving DecidableEq, Repr

/-- Describes a validation error. -/
structure CreateArtistValidationError where
  FieldRef : String
  ErrorMessage : String
  deriving DecidableEq, Repr

/-- The bodies the handler responds with. -/
inductive ResponseBody where
  | errorBody (body : CreateArtistErrorResponseBody)
  | validationError (err : CreateArtistValidationError)
  | artist (item : models.ArtistInfo)
  deriving DecidableEq, Repr

/-- Attempts to cast the input object to the endpoint injector. -/
def GetSafeInjector {σ : Type} (object : Option (inject.Injector σ)) :
    Except GoError (inject.Injector σ) :=
  match object with
  | none => Except.error (GoError.Errorf "createartist: failed to deduce injector")
  | some injector => Except.ok injector

/-- Unmarshals the request body for this endpoint. `Unmarshal` stands for
`json.Unmarshal` into a fresh `CreateArtistRequestBody`. -/
def ExtractRequestBody (Unmarshal : String → Except GoError CreateArtistRequestBody)
    (request : api.APIRequest) : Except GoError CreateArtistRequestBody :=
  match Unmarshal request.Body with
  | Except.error err => Except.error err
  | Except.ok body => Except.ok body

/-- Validates the statistics request body for this endpoint. -/
def ValidateArtistStatsRequestBody (_request : CreateArtistStatsRequestBody) :
    Option CreateArtistValidationError :=
  none

/-- The loop `for _, genre := range artistGenres` of `ValidateRequestBody`,
followed by the statements after it. -/
def validateGenres (stats : CreateArtistStatsRequestBody) :
    List String → Option CreateArtistValidationError
  | [] => ValidateArtistStatsRequestBody stats
  | genre :: rest =>
    if genre.length == 0 then
      some { FieldRef := "genres", ErrorMessage := "array value must not be empty" }
    else validateGenres stats rest

/-- Validates the request body for this endpoint. The body is passed by
pointer: the result is the body as the call leaves it, and the error. -/
def ValidateRequestBody (request : CreateArtistRequestBody) :
    CreateArtistRequestBody × Option CreateArtistValidationError :=
  let artistName := strings.TrimSpace request.Name
  let artistGenres := arrays.Map request.Genres (fun genre => strings.TrimSpace genre)
  if artistName.length == 0 then
    (request, some { FieldRef := "name", ErrorMessage := "value must not be empty" })
  else (request, validateGenres request.Stats artistGenres)

/-- Checks whether the given artist id exists in the mongo store. -/
def EnsureArtistDoesNotExist {σ : Type} (s : store.MongoStore σ) (artistID : String)
    (w : store.World σ) : Option GoError × store.World σ :=
  let filter : query.Filter :=
    { Root := some (query.IQuery.FilterOperatorEq "_id" (GoValue.string artistID)),
      Limit := 1 }
  match store.findItems s filter w with
  | (Except.error err, w) => (some err, w)
  | (Except.ok items, w) =>
    if items.length == 0 then (none, w)
    else (some (GoError.Errorf "artist already exists"), w)

/-- The router handler for artist creation. `Unmarshal` stands for
`json.Unmarshal` and `newUUID` for the value of `uuid.New().String()`. -/
def Handler {σ : Type} (Unmarshal : String → Except GoError CreateArtistRequestBody)
    (newUUID : String) (request : api.APIRequest) (object : Option (inject.Injector σ))
    (w : store.World σ) : api.APIResponse ResponseBody × store.World σ :=
  match GetSafeInjector object with
  | Except.error _ => ({ StatusCode := http.StatusInternalServerError }, w)
  | Except.ok injector =>
    match ExtractRequestBody Unmarshal request with
    | Except.error _ =>
      ({ StatusCode := http.StatusBadRequest,
         Body := some (ResponseBody.errorBody { Message := "invalid request body" }) }, w)
    | Except.ok requestBody =>
      match ValidateRequestBody requestBody with
      | (_, some validationError) =>
        ({ StatusCode := http.StatusBadRequest,
           Body := some (ResponseBody.validationError validationError) }, w)
      | (requestBody, none) =>
        let artistStore := store.NewMongoStore injector.MongoInstance "gostream" "artists"
        let artist : models.ArtistInfo :=
          { ID := newUUID,
            Name := requestBody.Name,
            Genres := requestBody.Genres,
            Followers := requestBody.Followers,
            Stats := { Popularity := requestBody.Stats.Popularity } }
        match EnsureArtistDoesNotExist artistStore artist.ID w with
        | (some _, w) =>
          ({ StatusCode := http.StatusConflict,
             Body := some (ResponseBody.errorBody { Message := "artist already exists" }) }, w)
        | (none, w) =>
          match store.createItem artistStore artist w with
          | (some _, w) => ({ StatusCode := http.StatusInternalServerError }, w)
          | (none, w) =>
            ({ StatusCode := http.StatusOK, Body := some (ResponseBody.artist artist) }, w)

end createartist

/-! ## `impl/funcs/updateartist` -/

namespace updateartist

/-- The request body for the artist statistics. -/
structure UpdateArtistStatsRequestBody where
  Popularity : float32
  deriving DecidableEq, Repr

/-- The request body for the update artist endpoint. -/
structure UpdateArtistRequestBody where
  Name : String
  Genres : List String
  Followers : Nat
  Stats : UpdateArtistStatsRequestBody
  deriving DecidableEq, Repr

/-- The error response body for the update artist endpoint. -/
structure UpdateArtistErrorResponseBody where
  Message : String
  deriving DecidableEq, Repr

/-- Describes a validation error. -/
structure UpdateArtistValidationError where
  FieldRef : String
  ErrorMessage : String
  deriving DecidableEq, Repr

/-- Describes a path parameter validation error. -/
structure UpdateArtistPathValidationError where
  PathRef : String
  ErrorMessage : String
  deriving DecidableEq, Repr

/-- The bodies the handler responds with. -/
inductive ResponseBody where
  | pathValidationError (err : UpdateArtistPathValidationError)
  | errorBody (body : UpdateArtistErrorResponseBody)
  | validationError (err : UpdateArtistValidationError)
  deriving DecidableEq, Repr

/-- Attempts to cast the input object to the endpoint injector. -/
def GetSafeInjector {σ : Type} (object : Option (inject.Injector σ)) :
    Except GoError (inject.Injector σ) :=
  match object with
  | none => Except.error (GoError.Errorf "updateartist: failed to deduce injector")
  | some injector => Except.ok injector

/-- Unmarshals the request body for this endpoint. `Unmarshal` stands for
`json.Unmarshal` into a fresh `UpdateArtistRequestBody`. -/
def ExtractRequestBody (Unmarshal : String → Except GoError UpdateArtistRequestBody)
    (request : api.APIRequest) : Except GoError UpdateArtistRequestBody :=
  match Unmarshal request.Body with
  | Except.error err => Except.error err
  | Except.ok body => Except.ok body

/-- Gets and validates the id path parameter. `uuidParse` stands for the error
result of `uuid.Parse`, `none` on a valid UUID. -/
def GetAndValidateID (uuidParse : String → Option GoError) (request : api.APIRequest) :
    String × Option UpdateArtistPathValidationError :=
  let id := mapIndex request.PathParameters "id"
  match uuidParse id with
  | some _ => ("", some { PathRef := ":id", ErrorMessage := "value is not a valid uuid" })
  | none => (id, none)

/-- Validates the statistics request body for this endpoint. -/
def ValidateArtistStatsRequestBody (_request : UpdateArtistStatsRequestBody) :
    Option UpdateArtistValidationError :=
  none

/-- The loop `for _, genre := range artistGenres` of `ValidateRequestBody`:
the error it returns from the function, or `none` when it runs to its end. -/
def validateGenres : List String → Option UpdateArtistValidationError
  | [] => none
  | genre :: rest =>
    if genre.length == 0 then
      some { FieldRef := "genres", ErrorMessage := "array value must not be empty" }
    else validateGenres rest

/-- Validates the request body for this endpoint. The body is passed by
pointer: the result is the body as the call leaves it, and the error. -/
def ValidateRequestBody (request : UpdateArtistRequestBody) :
    UpdateArtistRequestBody × Option UpdateArtistValidationError :=
  let nameError : Option UpdateArtistValidationError :=
    if request.Name != "" then
      let artistName := strings.TrimSpace request.Name
      if artistName.length == 0 then
        some { FieldRef := "name", ErrorMessage := "value must not be empty" }
      else none
    else none
  match nameError with
  | some err => (request, some err)
  | none =>
    let genresError : Option UpdateArtistValidationError :=
      if request.Genres.length > 0 then
        let artistGenres := arrays.Map request.Genres (fun genre => strings.TrimSpace genre)
        validateGenres artistGenres
      else none
    match genresError with
    | some err => (request, some err)
    | none => (request, ValidateArtistStatsRequestBody request.Stats)

/-- Searches an artist with the given id in the database. -/
def FindArtistByID {σ : Type} (s : store.MongoStore σ) (id : String) (w : store.World σ) :
    Outcome (Except GoError models.ArtistInfo) × store.World σ :=
  let filter : query.Filter :=
    { Root := some (query.IQuery.FilterOperatorEq "_id" (GoValue.string id)),
      Limit := 1 }
  match store.findItems s filter w with
  | (Except.error err, w) => (Outcome.returned (Except.error err), w)
  | (Except.ok items, w) =>
    if items.length == 0 then
      (Outcome.returned (Except.error (GoError.Errorf "update: track not found")), w)
    else
      match items[0]? with
      | none => (Outcome.panicked "index out of range [0]", w)
      | some item => (Outcome.returned (Except.ok item), w)

/-- The router handler for track creation (the update endpoint). `uuidParse`
stands for `uuid.Parse` and `Unmarshal` for `json.Unmarshal`. -/
def Handler {σ : Type} (uuidParse : String → Option GoError)
    (Unmarshal : String → Except GoError UpdateArtistRequestBody)
    (request : api.APIRequest) (object : Option (inject.Injector σ))
    (w : store.World σ) : Outcome (api.APIResponse ResponseBody) × store.World σ :=
  match GetSafeInjector object with
  | Except.error _ => (Outcome.returned { StatusCode := http.StatusInternalServerError }, w)
  | Except.ok injector =>
    match GetAndValidateID uuidParse request with
    | (_, some validationErr) =>
      (Outcome.returned
        { StatusCode := http.StatusBadRequest,
          Body := some (ResponseBody.pathValidationError validationErr) }, w)
    | (id, none) =>
      let artistStore := store.NewMongoStore injector.MongoInstance "gostream" "artists"
      match FindArtistByID artistStore id w with
      | (Outcome.panicked msg, w) => (Outcome.panicked msg, w)
      | (Outcome.returned (Except.error _), w) =>
        (Outcome.returned { StatusCode := http.StatusNotFound }, w)
      | (Outcome.returned (Except.ok artistInfo), w) =>
        match ExtractRequestBody Unmarshal request with
        | Except.error _ =>
          (Outcome.returned
            { StatusCode := http.StatusBadRequest,
              Body := some (ResponseBody.errorBody { Message := "invalid request body" }) }, w)
        | Except.ok requestBody =>
          match ValidateRequestBody requestBody with
          | (_, some validationError) =>
            (Outcome.returned
              { StatusCode := http.StatusBadRequest,
                Body := some (ResponseBody.validationError validationError) }, w)
          | (requestBody, none) =>
            let artistInfo : models.ArtistInfo :=
              if requestBody.Name != "" then { artistInfo with Name := requestBody.Name }
              else artistInfo
            let artistInfo : models.ArtistInfo :=
              if requestBody.Genres.length > 0 then
                { artistInfo with Genres := requestBody.Genres }
              else artistInfo
            let artistInfo : models.ArtistInfo :=
              if requestBody.Followers != 0 then
                { artistInfo with Followers := requestBody.Followers }
              else artistInfo
            let artistInfo : models.ArtistInfo :=
              if requestBody.Stats.Popularity.neZero then
                { artistInfo with Stats := { artistInfo.Stats with
                    Popularity := requestBody.Stats.Popularity } }
              else artistInfo
            let updateFilter : query.Filter :=
              { Root := some (query.IQuery.FilterOperatorEq "_id" (GoValue.string id)) }
            let updateOperator : query.Update :=
              { Root := query.IUpdate.UpdateOperatorSet
                  [("name", GoValue.string artistInfo.Name),
                   ("genres", GoValue.strings artistInfo.Genres),
                   ("followers", GoValue.uint32 artistInfo.Followers),
                   ("stats.popularity", GoValue.float32 artistInfo.Stats.Popularity)] }
            match store.updateItem artistStore updateFilter updateOperator w with
            | (Except.error _, w) =>
              (Outcome.returned { StatusCode := http.StatusInternalServerError }, w)
            | (Except.ok count, w) =>
              if count == 0 then
                (Outcome.returned { StatusCode := http.StatusNoContent }, w)
              else
                (Outcome.returned { StatusCode := http.StatusNoContent }, w)

end updateartist

/-! ## `impl/funcs/deleteartist` -/

namespace deleteartist

/-- Attempts to cast the input object to the endpoint injector. -/
def GetSafeInjector {σ : Type} (object : Option (inject.Injector σ)) :
    Except GoError (inject.Injector σ) :=
  match object with
  | none => Except.error (GoError.Errorf "deleteartist: failed to deduce injector")
  | some injector => Except.ok injector

/-- The router handler of the delete endpoint. It never sets a response body. -/
def Handler {σ : Type} (request : api.APIRequest) (object : Option (inject.Injector σ))
    (w : store.World σ) : api.APIResponse Empty × store.World σ :=
  match GetSafeInjector object with
  | Except.error _ => ({ StatusCode := http.StatusInternalServerError }, w)
  | Except.ok injector =>
    let idToDelete := mapIndex request.PathParameters "id"
    let store := store.NewMongoStore injector.MongoInstance "gostream" "artists"
    match Artists.store.deleteItem store idToDelete w with
    | (Except.error _, w) => ({ StatusCode := http.StatusInternalServerError }, w)
    | (Except.ok count, w) =>
      if count == 0 then ({ StatusCode := http.StatusNoContent }, w)
      else ({ StatusCode := http.StatusAccepted }, w)

end deleteartist

/-! ## Sample inputs

Concrete requests and stores on which the statements below are evaluated. -/

namespace sample

/-- Whether a stored artist satisfies the root predicate of a filter; only
equality on the primary key is interpreted, anything else matches. -/
def satisfies : Option query.IQuery → models.ArtistInfo → Bool
  | some (query.IQuery.FilterOperatorEq "_id" (GoValue.string v)), item => item.ID == v
  | _, _ => true

/-- An in-memory store over a list of artists. -/
def memoryStore : store.MongoStore (List models.ArtistInfo) where
  FindItems := fun filter db =>
    let found := db.filter (satisfies filter.Root)
    (Except.ok (if filter.Limit == 0 then found else found.take filter.Limit), db)
  UpdateItem := fun filter _ db =>
    (Except.ok (db.filter (satisfies filter.Root)).length, db)
  CreateItem := fun item db => (none, db ++ [item])
  DeleteItem := fun id db =>
    (Except.ok (db.filter (fun item => item.ID == id)).length,
      db.filter (fun item => item.ID != id))

/-- A store none of whose operations gets through to the database. -/
def brokenStore : store.MongoStore Unit where
  FindItems := fun _ db => (Except.error (GoError.external "connection refused"), db)
  UpdateItem := fun _ _ db => (Except.error (GoError.external "connection refused"), db)
  CreateItem := fun _ db => (some (GoError.external "connection refused"), db)
  DeleteItem := fun _ db => (Except.error (GoError.external "connection refused"), db)

/-- The injector over the in-memory store. -/
def memoryInjector : inject.Injector (List models.ArtistInfo) :=
  { MongoInstance := { collection := fun _ _ => memoryStore } }

/-- The injector over the broken store. -/
def brokenInjector : inject.Injector Unit :=
  { MongoInstance := { collection := fun _ _ => brokenStore } }

/-- The artist of the scenarios in section 8 of the specification. -/
def artistA : models.ArtistInfo :=
  { ID := "a1", Name := "Artist A", Genres := ["rock"], Followers := 10,
    Stats := { Popularity := { bits := 0x3F000000 } } }

/-- A stand-in for `uuid.Parse` that accepts the identifier `a1` only. -/
def uuidParse (id : String) : Option GoError :=
  if id == "a1" then none else some (GoError.external "invalid UUID length")

/-- An update body that sets the followers to 20 and nothing else. -/
def followersOnly : updateartist.UpdateArtistRequestBody :=
  { Name := "", Genres := [], Followers := 20, Stats := { Popularity := { bits := 0 } } }

/-- A create body for a new artist. -/
def newArtist : createartist.CreateArtistRequestBody :=
  { Name := "Artist B", Genres := ["jazz"], Followers := 0,
    Stats := { Popularity := { bits := 0 } } }

/-- A request for the path parameter `id` with the given value, and no body. -/
def requestFor (id : String) : api.APIRequest :=
  { PathParameters := fun key => if key == "id" then some id else none }

/-- A request with the given query parameters `limit` and `name`. -/
def listRequest (limit name : Option String) : api.APIRequest :=
  { QueryParameters := fun key =>
      if key == "limit" then limit else if key == "name" then name else none }

end sample

/-! ## Strings and numbers -/

/-- A string has length zero exactly when it is the empty string. -/
theorem length_eq_zero_iff (s : String) : s.length = 0 ↔ s = "" := by
  cases s with
  | mk l => cases l <;> simp [String.length, String.ext_iff]

/-- Dropping the elements satisfying `p` from both ends leaves nothing exactly when
every element satisfies `p`. -/
theorem dropWhile_reverse_dropWhile_eq_nil (p : Char → Bool) (l : List Char) :
    ((l.dropWhile p).reverse.dropWhile p).reverse = [] ↔ ∀ c ∈ l, p c = true := by
  rw [List.reverse_eq_nil_iff, List.dropWhile_eq_nil_iff]
  constructor
  · intro h
    have hnil : l.dropWhile p = [] := by
      by_contra hne
      have hnot := List.head_dropWhile_not p l hne
      have hmem : (l.dropWhile p).head hne ∈ (l.dropWhile p).reverse :=
        List.mem_reverse.mpr (List.head_mem hne)
      rw [h _ hmem] at hnot
      exact absurd hnot (by decide)
    exact List.dropWhile_eq_nil_iff.mp hnil
  · intro h
    rw [List.dropWhile_eq_nil_iff.mpr h]
    intro x hx; simp at hx

/-- `strings.TrimSpace` returns the empty string exactly on the strings made of
white space only. -/
theorem TrimSpace_eq_empty_iff (s : String) :
    strings.TrimSpace s = "" ↔ ∀ c ∈ s.data, unicode.IsSpace c = true := by
  unfold strings.TrimSpace
  rw [String.ext_iff]
  exact dropWhile_reverse_dropWhile_eq_nil _ _

/-- The character printed for a decimal digit is an ASCII digit of that value. -/
theorem digitChar_spec : ∀ k, k < 10 →
    strconv.isDigit (Nat.digitChar k) = true ∧ (Nat.digitChar k).toNat - 48 = k := by
  decide

/-- Appending one digit multiplies the value by ten and adds the digit. -/
theorem digitsValue_append (l : List Char) (d : Char) :
    strconv.digitsValue (l ++ [d]) = strconv.digitsValue l * 10 + (d.toNat - 48) := by
  simp [strconv.digitsValue, List.foldl_append]

theorem toDigitsCore_spec (fuel : Nat) : ∀ n, n < fuel →
    ∃ l : List Char, (∀ ds, Nat.toDigitsCore 10 fuel n ds = l ++ ds) ∧ l ≠ [] ∧
      l.all strconv.isDigit = true ∧ strconv.digitsValue l = n := by
  induction fuel with
  | zero => intro n h; omega
  | succ fuel ih =>
    intro n hn
    have hd := digitChar_spec (n % 10) (Nat.mod_lt _ (by decide))
    by_cases h0 : n / 10 = 0
    · refine ⟨[Nat.digitChar (n % 10)], ?_, by simp, ?_, ?_⟩
      · intro ds; simp [Nat.toDigitsCore, h0]
      · simp [hd.1]
      · have : strconv.digitsValue [Nat.digitChar (n % 10)] = (Nat.digitChar (n % 10)).toNat - 48 := by
          simp [strconv.digitsValue]
        rw [this, hd.2]; omega
    · obtain ⟨l, hl, _, hall, hval⟩ := ih (n / 10) (by omega)
      refine ⟨l ++ [Nat.digitChar (n % 10)], ?_, by simp, ?_, ?_⟩
      · intro ds; simp [Nat.toDigitsCore, h0, hl]
      · simp [List.all_append, hall, hd.1]
      · rw [digitsValue_append, hval, hd.2]; omega

/-- `strconv.Atoi` accepts an unsigned non-empty run of digits whose value fits
the 64-bit `int`, and returns that value. -/
theorem Atoi_digits (l : List Char) (hne : l ≠ []) (hall : l.all strconv.isDigit = true)
    (hle : strconv.digitsValue l ≤ 2 ^ 63 - 1) :
    strconv.Atoi (String.mk l) = ((strconv.digitsValue l : Int), none) := by
  cases l with
  | nil => exact absurd rfl hne
  | cons c rest =>
    have hc : strconv.isDigit c = true := by
      simp [List.all_cons] at hall; exact hall.1
    have hm : c ≠ '-' := by
      intro h; rw [h] at hc; revert hc; decide
    have hp : c ≠ '+' := by
      intro h; rw [h] at hc; revert hc; decide
    have hle2 : strconv.digitsValue (c :: rest) ≤ 9223372036854775807 := by
      have : (2 : Nat) ^ 63 - 1 = 9223372036854775807 := by norm_num
      omega
    simp only [strconv.Atoi]
    simp [hm, hp, hall]
    rw [if_neg (by omega), if_neg (by omega)]

/-- `strconv.Atoi` reads back the decimal text of a natural number that fits the
64-bit `int`. -/
theorem Atoi_repr (N : Nat) (h : N ≤ 2 ^ 63 - 1) :
    strconv.Atoi (toString N) = ((N : Int), none) := by
  obtain ⟨l, hl, hne, hall, hval⟩ := toDigitsCore_spec (N + 1) N (Nat.lt_succ_self N)
  have hs : toString N = String.mk l := by
    show Nat.repr N = String.mk l
    simp [Nat.repr, Nat.toDigits, hl, List.asString]
  rw [hs, Atoi_digits l hne hall (by rw [hval]; exact h), hval]

/-! ## Characterisations of the source functions -/

/-- The root of the filter built from the query parameters. -/
theorem CreateFilter_root (request : api.APIRequest) :
    (getartists.CreateFilterFromQueryParameters request).Root =
      (request.QueryParameters "name").map (fun v =>
        query.IQuery.FilterOperatorAnd [query.IQuery.FilterOperatorEq "name" (GoValue.string v)]) := by
  unfold getartists.CreateFilterFromQueryParameters
  cases hn : request.QueryParameters "name" with
  | none => simp; split_ifs <;> rfl
  | some v => simp

/-- The limit of the filter built from the query parameters. -/
theorem CreateFilter_limit (request : api.APIRequest) :
    (getartists.CreateFilterFromQueryParameters request).Limit =
      match request.QueryParameters "limit" with
      | none => 0
      | some s => if (strconv.Atoi s).2 = none then strconv.toUint32 (strconv.Atoi s).1 else 0 := by
  unfold getartists.CreateFilterFromQueryParameters
  cases hl : request.QueryParameters "limit" with
  | none => simp; split_ifs <;> rfl
  | some s =>
    cases he : (strconv.Atoi s).2 <;> simp [he] <;> split_ifs <;> rfl

/-- The genres loop of the create validation fails exactly when some element is
empty. -/
theorem create_validateGenres_spec (stats : createartist.CreateArtistStatsRequestBody)
    (l : List String) :
    createartist.validateGenres stats l =
      if ∃ g ∈ l, g = "" then
        some { FieldRef := "genres", ErrorMessage := "array value must not be empty" }
      else none := by
  induction l with
  | nil => simp [createartist.validateGenres, createartist.ValidateArtistStatsRequestBody]
  | cons g rest ih =>
    by_cases hg : g = ""
    · simp [createartist.validateGenres, hg]
    · have hlen : ¬ (g.length = 0) := fun h => hg ((length_eq_zero_iff g).mp h)
      have hg2 : ¬ ("" = g) := fun h => hg h.symm
      simp [createartist.validateGenres, hlen, ih, hg2]

/-- The genres loop of the update validation fails exactly when some element is
empty. -/
theorem update_validateGenres_spec (l : List String) :
    updateartist.validateGenres l =
      if ∃ g ∈ l, g = "" then
        some { FieldRef := "genres", ErrorMessage := "array value must not be empty" }
      else none := by
  induction l with
  | nil => simp [updateartist.validateGenres]
  | cons g rest ih =>
    by_cases hg : g = ""
    · simp [updateartist.validateGenres, hg]
    · have hlen : ¬ (g.length = 0) := fun h => hg ((length_eq_zero_iff g).mp h)
      have hg2 : ¬ ("" = g) := fun h => hg h.symm
      simp [updateartist.validateGenres, hlen, ih, hg2]

/-- The create validation as a decision list. -/
theorem create_ValidateRequestBody_eq (request : createartist.CreateArtistRequestBody) :
    createartist.ValidateRequestBody request =
      (request,
        if strings.TrimSpace request.Name = "" then
          some { FieldRef := "name", ErrorMessage := "value must not be empty" }
        else if ∃ g ∈ request.Genres, strings.TrimSpace g = "" then
          some { FieldRef := "genres", ErrorMessage := "array value must not be empty" }
        else none) := by
  unfold createartist.ValidateRequestBody
  by_cases hn : strings.TrimSpace request.Name = ""
  · simp [hn]
  · have hlen : ¬ ((strings.TrimSpace request.Name).length = 0) :=
      fun h => hn ((length_eq_zero_iff _).mp h)
    simp [hn, hlen, create_validateGenres_spec, arrays.Map]

/-- The update validation as a decision list. -/
theorem update_ValidateRequestBody_eq (request : updateartist.UpdateArtistRequestBody) :
    updateartist.ValidateRequestBody request =
      (request,
        if request.Name ≠ "" ∧ strings.TrimSpace request.Name = "" then
          some { FieldRef := "name", ErrorMessage := "value must not be empty" }
        else if ∃ g ∈ request.Genres, strings.TrimSpace g = "" then
          some { FieldRef := "genres", ErrorMessage := "array value must not be empty" }
        else none) := by
  unfold updateartist.ValidateRequestBody
  by_cases hne : request.Name = ""
  · by_cases hg : request.Genres = []
    · simp [hne, hg, updateartist.ValidateArtistStatsRequestBody]
    · have hpos : 0 < request.Genres.length := List.length_pos.mpr hg
      by_cases hx : ∃ g ∈ request.Genres, strings.TrimSpace g = ""
      · simp [hne, hpos, update_validateGenres_spec, arrays.Map, hx]
      · simp [hne, hpos, update_validateGenres_spec, arrays.Map, hx,
          updateartist.ValidateArtistStatsRequestBody]
  · by_cases hn : strings.TrimSpace request.Name = ""
    · simp [hne, hn]
    · have hlen : ¬ ((strings.TrimSpace request.Name).length = 0) :=
        fun h => hn ((length_eq_zero_iff _).mp h)
      by_cases hg : request.Genres = []
      · simp [hne, hn, hlen, hg, updateartist.ValidateArtistStatsRequestBody]
      · have hpos : 0 < request.Genres.length := List.length_pos.mpr hg
        by_cases hx : ∃ g ∈ request.Genres, strings.TrimSpace g = ""
        · simp [hne, hn, hlen, hpos, update_validateGenres_spec, arrays.Map, hx]
        · simp [hne, hn, hlen, hpos, update_validateGenres_spec, arrays.Map, hx,
            updateartist.ValidateArtistStatsRequestBody]

/-- The lookup by primary key issues one find and never indexes an empty
result. -/
theorem FindArtistByID_eq {σ : Type} (s : store.MongoStore σ) (id : String) (w : store.World σ) :
    updateartist.FindArtistByID s id w =
      ((match (s.FindItems { Root := some (query.IQuery.FilterOperatorEq "_id" (GoValue.string id)),
                             Limit := 1 } w.db).1 with
        | Except.error err => Outcome.returned (Except.error err)
        | Except.ok [] => Outcome.returned (Except.error (GoError.Errorf "update: track not found"))
        | Except.ok (item :: _) => Outcome.returned (Except.ok item)),
       { db := (s.FindItems { Root := some (query.IQuery.FilterOperatorEq "_id" (GoValue.string id)),
                              Limit := 1 } w.db).2,
         calls := w.calls ++ [store.Call.FindItems
            { Root := some (query.IQuery.FilterOperatorEq "_id" (GoValue.string id)),
              Limit := 1 }] }) := by
  unfold updateartist.FindArtistByID store.findItems
  dsimp only
  generalize s.FindItems _ w.db = r
  obtain ⟨res, db⟩ := r
  cases res with
  | error e => rfl
  | ok items =>
    cases items with
    | nil => rfl
    | cons x xs => simp

/-- The existence check issues one find and maps its three kinds of answer. -/
theorem EnsureArtistDoesNotExist_eq {σ : Type} (s : store.MongoStore σ) (artistID : String)
    (w : store.World σ) :
    createartist.EnsureArtistDoesNotExist s artistID w =
      ((match (s.FindItems { Root := some (query.IQuery.FilterOperatorEq "_id"
                  (GoValue.string artistID)), Limit := 1 } w.db).1 with
        | Except.error err => some err
        | Except.ok [] => none
        | Except.ok (_ :: _) => some (GoError.Errorf "artist already exists")),
       { db := (s.FindItems { Root := some (query.IQuery.FilterOperatorEq "_id"
                  (GoValue.string artistID)), Limit := 1 } w.db).2,
         calls := w.calls ++ [store.Call.FindItems
            { Root := some (query.IQuery.FilterOperatorEq "_id" (GoValue.string artistID)),
              Limit := 1 }] }) := by
  unfold createartist.EnsureArtistDoesNotExist store.findItems
  dsimp only
  generalize s.FindItems _ w.db = r
  obtain ⟨res, db⟩ := r
  cases res with
  | error e => rfl
  | ok items =>
    cases items with
    | nil => rfl
    | cons x xs => simp

/-- The path parameter check in terms of the answer of `uuid.Parse`. -/
theorem GetAndValidateID_eq (uuidParse : String → Option GoError) (request : api.APIRequest) :
    updateartist.GetAndValidateID uuidParse request =
      if uuidParse (mapIndex request.PathParameters "id") = none then
        (mapIndex request.PathParameters "id", none)
      else ("", some { PathRef := ":id", ErrorMessage := "value is not a valid uuid" }) := by
  unfold updateartist.GetAndValidateID
  cases h : uuidParse (mapIndex request.PathParameters "id") <;> simp [h]

/-- When the id is valid, the lookup finds an artist and the body is valid, the
update handler issues the find and then one update with the merged fields,
and answers according to the result of that update. -/
theorem update_Handler_reaches_update {σ : Type} (uuidParse : String → Option GoError)
    (Unmarshal : String → Except GoError updateartist.UpdateArtistRequestBody)
    (request : api.APIRequest) (injector : inject.Injector σ) (w : store.World σ)
    (a : models.ArtistInfo) (rest : List models.ArtistInfo)
    (b : updateartist.UpdateArtistRequestBody)
    (hid : uuidParse (mapIndex request.PathParameters "id") = none)
    (hfind : ((store.NewMongoStore injector.MongoInstance "gostream" "artists").FindItems
        { Root := some (query.IQuery.FilterOperatorEq "_id"
            (GoValue.string (mapIndex request.PathParameters "id"))), Limit := 1 } w.db).1
        = Except.ok (a :: rest))
    (hbody : Unmarshal request.Body = Except.ok b)
    (hvalid : (updateartist.ValidateRequestBody b).2 = none) :
    let s := store.NewMongoStore injector.MongoInstance "gostream" "artists"
    let id := mapIndex request.PathParameters "id"
    let findFilter : query.Filter :=
      { Root := some (query.IQuery.FilterOperatorEq "_id" (GoValue.string id)), Limit := 1 }
    let updateFilter : query.Filter :=
      { Root := some (query.IQuery.FilterOperatorEq "_id" (GoValue.string id)), Limit := 0 }
    let updateOperator : query.Update :=
      { Root := query.IUpdate.UpdateOperatorSet
          [("name", GoValue.string (if b.Name ≠ "" then b.Name else a.Name)),
           ("genres", GoValue.strings (if b.Genres.length > 0 then b.Genres else a.Genres)),
           ("followers", GoValue.uint32 (if b.Followers ≠ 0 then b.Followers else a.Followers)),
           ("stats.popularity", GoValue.float32
              (if b.Stats.Popularity.neZero = true then b.Stats.Popularity
               else a.Stats.Popularity))] }
    let r := s.UpdateItem updateFilter updateOperator (s.FindItems findFilter w.db).2
    updateartist.Handler uuidParse Unmarshal request (some injector) w =
      ((match r.1 with
        | Except.error _ => Outcome.returned { StatusCode := http.StatusInternalServerError }
        | Except.ok _ => Outcome.returned { StatusCode := http.StatusNoContent }),
       { db := r.2,
         calls := w.calls ++ [store.Call.FindItems findFilter,
                              store.Call.UpdateItem updateFilter updateOperator] }) := by
  have hv : updateartist.ValidateRequestBody b = (b, none) := by
    have h1 : (updateartist.ValidateRequestBody b).1 = b := by
      unfold updateartist.ValidateRequestBody
      dsimp only
      split
      · rfl
      · split <;> rfl
    exact Prod.ext h1 hvalid
  dsimp only
  unfold updateartist.Handler
  by_cases h1 : b.Name = "" <;> by_cases h2 : b.Genres.length > 0 <;>
    by_cases h3 : b.Followers = 0 <;> cases h4 : b.Stats.Popularity.neZero <;>
    simp only [updateartist.GetSafeInjector, updateartist.GetAndValidateID, hid,
      FindArtistByID_eq, hfind, updateartist.ExtractRequestBody, hbody, hv, store.updateItem,
      h1, h2, h3, h4, bne_self_eq_false, if_true, if_false, ne_eq, not_true_eq_false,
      not_false_eq_true, Bool.false_eq_true, bne_iff_ne] <;>
    (generalize store.MongoStore.UpdateItem _ _ _ _ = r
     obtain ⟨res, db⟩ := r
     cases res <;> simp)

theorem delete_Handler_eq {σ : Type} (request : api.APIRequest) (injector : inject.Injector σ)
    (w : store.World σ) :
    deleteartist.Handler request (some injector) w =
      ((match ((store.NewMongoStore injector.MongoInstance "gostream" "artists").DeleteItem
                (mapIndex request.PathParameters "id") w.db).1 with
        | Except.error _ => { StatusCode := 500, Body := none }
        | Except.ok 0 => { StatusCode := 204, Body := none }
        | Except.ok (_ + 1) => { StatusCode := 202, Body := none }),
       { db := ((store.NewMongoStore injector.MongoInstance "gostream" "artists").DeleteItem
                (mapIndex request.PathParameters "id") w.db).2,
         calls := w.calls ++ [store.Call.DeleteItem (mapIndex request.PathParameters "id")] }) := by
  unfold deleteartist.Handler store.deleteItem
  simp only [deleteartist.GetSafeInjector]
  generalize store.MongoStore.DeleteItem _ _ _ = r
  obtain ⟨res, db⟩ := r
  cases res with
  | error e => rfl
  | ok count =>
    cases count with
    | zero => rfl
    | succ n => simp [http.StatusAccepted]

/-- When the body is valid and the existence check finds nothing, the create
handler issues the find and then one create of the entity built from the raw
body, and answers according to the result of that create. -/
theorem create_Handler_reaches_create {σ : Type}
    (Unmarshal : String → Except GoError createartist.CreateArtistRequestBody)
    (newUUID : String) (request : api.APIRequest) (injector : inject.Injector σ)
    (w : store.World σ) (body : createartist.CreateArtistRequestBody)
    (hbody : Unmarshal request.Body = Except.ok body)
    (hvalid : (createartist.ValidateRequestBody body).2 = none)
    (hfind : ((store.NewMongoStore injector.MongoInstance "gostream" "artists").FindItems
        { Root := some (query.IQuery.FilterOperatorEq "_id" (GoValue.string newUUID)),
          Limit := 1 } w.db).1 = Except.ok []) :
    let s := store.NewMongoStore injector.MongoInstance "gostream" "artists"
    let filter : query.Filter :=
      { Root := some (query.IQuery.FilterOperatorEq "_id" (GoValue.string newUUID)),
        Limit := 1 }
    let artist : models.ArtistInfo :=
      { ID := newUUID, Name := body.Name, Genres := body.Genres,
        Followers := body.Followers, Stats := { Popularity := body.Stats.Popularity } }
    let created := s.CreateItem artist (s.FindItems filter w.db).2
    createartist.Handler Unmarshal newUUID request (some injector) w =
      ((match created.1 with
        | some _ => { StatusCode := 500, Body := none }
        | none => { StatusCode := 200, Body := some (createartist.ResponseBody.artist artist) }),
       { db := created.2,
         calls := w.calls ++ [store.Call.FindItems filter, store.Call.CreateItem artist] }) := by
  have hv : createartist.ValidateRequestBody body = (body, none) := by
    rw [create_ValidateRequestBody_eq] at hvalid ⊢
    exact Prod.ext rfl hvalid
  dsimp only
  unfold createartist.Handler
  simp only [createartist.GetSafeInjector, createartist.ExtractRequestBody, hbody, hv,
    EnsureArtistDoesNotExist_eq, hfind, store.createItem]
  generalize store.MongoStore.CreateItem _ _ _ = r
  obtain ⟨res, db⟩ := r
  cases res <;> simp [http.StatusInternalServerError, http.StatusOK]

/-! ## The claims -/

/-- Claim C1. In the update handler, when the lookup returns a stored artist `a`
and the body `b` passes validation, the update passed to `UpdateItem` is a
field-set with exactly the keys `name`, `genres`, `followers` and
`stats.popularity` (never `_id`); each value is the value of `b` when that field
of `b` is non-empty or non-zero and the stored value of `a` otherwise. A body
that only sets the followers to 20 keeps the stored name, genres and
popularity. -/
theorem C1_update_envelope {σ : Type} (uuidParse : String → Option GoError)
    (Unmarshal : String → Except GoError updateartist.UpdateArtistRequestBody)
    (request : api.APIRequest) (injector : inject.Injector σ) (w : store.World σ)
    (a : models.ArtistInfo) (rest : List models.ArtistInfo)
    (b : updateartist.UpdateArtistRequestBody)
    (hid : uuidParse (mapIndex request.PathParameters "id") = none)
    (hfind : ((store.NewMongoStore injector.MongoInstance "gostream" "artists").FindItems
        { Root := some (query.IQuery.FilterOperatorEq "_id"
            (GoValue.string (mapIndex request.PathParameters "id"))), Limit := 1 } w.db).1
        = Except.ok (a :: rest))
    (hbody : Unmarshal request.Body = Except.ok b)
    (hvalid : (updateartist.ValidateRequestBody b).2 = none) :
    ∃ (findFilter updateFilter : query.Filter) (set : List (String × GoValue)),
      (updateartist.Handler uuidParse Unmarshal request (some injector) w).2.calls =
        w.calls ++ [store.Call.FindItems findFilter,
          store.Call.UpdateItem updateFilter { Root := query.IUpdate.UpdateOperatorSet set }] ∧
      set =
        [("name", GoValue.string (if b.Name ≠ "" then b.Name else a.Name)),
         ("genres", GoValue.strings (if b.Genres.length > 0 then b.Genres else a.Genres)),
         ("followers", GoValue.uint32 (if b.Followers ≠ 0 then b.Followers else a.Followers)),
         ("stats.popularity", GoValue.float32
            (if b.Stats.Popularity.neZero = true then b.Stats.Popularity
             else a.Stats.Popularity))] ∧
      set.map Prod.fst = ["name", "genres", "followers", "stats.popularity"] ∧
      "_id" ∉ set.map Prod.fst ∧
      (b.Name = "" → b.Genres = [] → b.Followers = 20 → b.Stats.Popularity.neZero = false →
        set = [("name", GoValue.string a.Name), ("genres", GoValue.strings a.Genres),
               ("followers", GoValue.uint32 20),
               ("stats.popularity", GoValue.float32 a.Stats.Popularity)]) := by
  have h := update_Handler_reaches_update uuidParse Unmarshal request injector w a rest b
    hid hfind hbody hvalid
  dsimp only at h
  refine ⟨{ Root := some (query.IQuery.FilterOperatorEq "_id"
                (GoValue.string (mapIndex request.PathParameters "id"))), Limit := 1 },
    { Root := some (query.IQuery.FilterOperatorEq "_id"
                (GoValue.string (mapIndex request.PathParameters "id"))), Limit := 0 },
    _, ?_, rfl, ?_, ?_, ?_⟩
  · rw [h]
  · simp
  · simp
  · intro h1 h2 h3 h4
    simp [h1, h2, h3, h4]

/-- The scenario of section 8: the stored artist `a1` and a body that sets the
followers to 20. -/
theorem C1_update_envelope_witness :
    ∃ (findFilter updateFilter : query.Filter) (set : List (String × GoValue)),
      (updateartist.Handler sample.uuidParse (fun _ => Except.ok sample.followersOnly)
          (sample.requestFor "a1") (some sample.memoryInjector)
          { db := [sample.artistA] }).2.calls =
        [] ++ [store.Call.FindItems findFilter,
          store.Call.UpdateItem updateFilter { Root := query.IUpdate.UpdateOperatorSet set }] ∧
      set = [("name", GoValue.string "Artist A"), ("genres", GoValue.strings ["rock"]),
             ("followers", GoValue.uint32 20),
             ("stats.popularity", GoValue.float32 { bits := 0x3F000000 })] := by
  obtain ⟨f, u, set, hcalls, hset, _, _, hpart⟩ :=
    C1_update_envelope sample.uuidParse (fun _ => Except.ok sample.followersOnly) (sample.requestFor "a1")
      sample.memoryInjector { db := [sample.artistA] } sample.artistA []
      sample.followersOnly (by decide) rfl rfl (by decide)
  exact ⟨f, u, set, hcalls, hpart rfl rfl rfl rfl⟩

/-- Claim C2. The filter built from the query parameters has no root exactly
when there is no `name` parameter; with `name` present with value `v`, empty
or not, the root is the conjunction of the single equality of `name` with `v`.
The root is never a conjunction without children, and it depends on the
`name` parameter only, so not on `limit`. -/
theorem C2_filter_root (request : api.APIRequest) :
    ((getartists.CreateFilterFromQueryParameters request).Root = none ↔
        request.QueryParameters "name" = none) ∧
    (∀ v, request.QueryParameters "name" = some v →
        (getartists.CreateFilterFromQueryParameters request).Root =
          some (query.IQuery.FilterOperatorAnd
            [query.IQuery.FilterOperatorEq "name" (GoValue.string v)])) ∧
    (getartists.CreateFilterFromQueryParameters request).Root ≠
        some (query.IQuery.FilterOperatorAnd []) ∧
    (∀ other : api.APIRequest,
        other.QueryParameters "name" = request.QueryParameters "name" →
        (getartists.CreateFilterFromQueryParameters other).Root =
          (getartists.CreateFilterFromQueryParameters request).Root) := by
  refine ⟨?_, ?_, ?_, ?_⟩
  · rw [CreateFilter_root]; simp
  · intro v hv; rw [CreateFilter_root, hv]; rfl
  · rw [CreateFilter_root]
    cases request.QueryParameters "name" <;> simp
  · intro other h; rw [CreateFilter_root, CreateFilter_root, h]

/-- A request with `limit` 5 and `name` Artist A. -/
theorem C2_filter_root_witness :
    (getartists.CreateFilterFromQueryParameters
        (sample.listRequest (some "5") (some "Artist A"))).Root =
      some (query.IQuery.FilterOperatorAnd
        [query.IQuery.FilterOperatorEq "name" (GoValue.string "Artist A")]) :=
  (C2_filter_root (sample.listRequest (some "5") (some "Artist A"))).2.1 "Artist A" rfl

/-- Claim C3. The filter built from the query parameters has limit 0 when the
`limit` parameter is absent or `strconv.Atoi` rejects it, and limit `N` when
the parameter is the decimal text of `N` with `0 ≤ N ≤ 4294967295`, or any
other text that `strconv.Atoi` reads as such an `N`. The limit depends on the
`limit` parameter only, so not on `name`. -/
theorem C3_filter_limit (request : api.APIRequest) :
    (request.QueryParameters "limit" = none →
        (getartists.CreateFilterFromQueryParameters request).Limit = 0) ∧
    (∀ s, request.QueryParameters "limit" = some s → (strconv.Atoi s).2 ≠ none →
        (getartists.CreateFilterFromQueryParameters request).Limit = 0) ∧
    (∀ N : Nat, N ≤ 4294967295 → request.QueryParameters "limit" = some (toString N) →
        (getartists.CreateFilterFromQueryParameters request).Limit = N) ∧
    (∀ (s : String) (N : Nat), N ≤ 4294967295 → request.QueryParameters "limit" = some s →
        strconv.Atoi s = ((N : Int), none) →
        (getartists.CreateFilterFromQueryParameters request).Limit = N) ∧
    (∀ other : api.APIRequest,
        other.QueryParameters "limit" = request.QueryParameters "limit" →
        (getartists.CreateFilterFromQueryParameters other).Limit =
          (getartists.CreateFilterFromQueryParameters request).Limit) := by
  have hmod : ∀ N : Nat, N ≤ 4294967295 → ((N : Int) % (2 : Int) ^ 32).toNat = N := by
    intro N hN
    rw [Int.emod_eq_of_lt (by omega) (by norm_num; omega)]; simp
  refine ⟨?_, ?_, ?_, ?_, ?_⟩
  · intro h; rw [CreateFilter_limit, h]
  · intro s h he; rw [CreateFilter_limit, h]; simp [he]
  · intro N hN h
    rw [CreateFilter_limit, h]
    have := Atoi_repr N (by norm_num; omega)
    simp [this, strconv.toUint32]
    simpa using hmod N hN
  · intro s N hN h hA
    rw [CreateFilter_limit, h]
    simp [hA, strconv.toUint32]
    simpa using hmod N hN
  · intro other h; rw [CreateFilter_limit, CreateFilter_limit, h]

/-- A request with `limit` 42 and a `name`. -/
theorem C3_filter_limit_witness :
    (getartists.CreateFilterFromQueryParameters
        (sample.listRequest (some "42") (some "Artist A"))).Limit = 42 :=
  (C3_filter_limit (sample.listRequest (some "42") (some "Artist A"))).2.2.1 42
    (by decide) rfl

/-- Claim C4. `EnsureArtistDoesNotExist` issues exactly one find, with the filter
of equality on `_id` and limit 1, and returns nil exactly when that find
succeeds with an empty result; it returns the error of the find when the find
fails and the error "artist already exists" when the result is non-empty. The
create handler issues no store call, or that find alone, or that find followed
by one `CreateItem`; the last only when the check returned nil, and with an
entity whose ID is the id that was checked. -/
theorem C4_existence_check {σ : Type} (Unmarshal : String → Except GoError createartist.CreateArtistRequestBody)
    (newUUID : String) (request : api.APIRequest) (object : Option (inject.Injector σ))
    (s : store.MongoStore σ) (artistID : String) (w : store.World σ) :
    let filter : String → query.Filter := fun id =>
      { Root := some (query.IQuery.FilterOperatorEq "_id" (GoValue.string id)), Limit := 1 }
    let found := s.FindItems (filter artistID) w.db
    let ensured := createartist.EnsureArtistDoesNotExist s artistID w
    let handled := createartist.Handler Unmarshal newUUID request object w
    (ensured.2.calls = w.calls ++ [store.Call.FindItems (filter artistID)] ∧
      ensured.2.db = found.2) ∧
    (ensured.1 = none ↔ found.1 = Except.ok []) ∧
    (∀ err, found.1 = Except.error err → ensured.1 = some err) ∧
    (∀ item items, found.1 = Except.ok (item :: items) →
      ensured.1 = some (GoError.Errorf "artist already exists")) ∧
    (handled.2.calls = w.calls ∨
      handled.2.calls = w.calls ++ [store.Call.FindItems (filter newUUID)] ∨
      ∃ injector item, object = some injector ∧
        handled.2.calls =
          w.calls ++ [store.Call.FindItems (filter newUUID), store.Call.CreateItem item] ∧
        item.ID = newUUID ∧
        (createartist.EnsureArtistDoesNotExist
          (store.NewMongoStore injector.MongoInstance "gostream" "artists") newUUID w).1
            = none) := by
  intro filter found ensured handled
  refine ⟨?_, ?_, ?_, ?_, ?_⟩
  · simp only [ensured, EnsureArtistDoesNotExist_eq, filter, found, and_self]
  · simp only [ensured, EnsureArtistDoesNotExist_eq, filter, found]
    split <;> simp_all
  · intro err h
    simp only [ensured, EnsureArtistDoesNotExist_eq, filter, found] at h ⊢
    simp [h]
  · intro item items h
    simp only [ensured, EnsureArtistDoesNotExist_eq, filter, found] at h ⊢
    simp [h]
  · simp only [handled]
    unfold createartist.Handler
    cases object with
    | none => left; rfl
    | some injector =>
      simp only [createartist.GetSafeInjector, createartist.ExtractRequestBody]
      cases hU : Unmarshal request.Body with
      | error e => left; rfl
      | ok body =>
        simp only []
        rcases hV : createartist.ValidateRequestBody body with ⟨body2, verr⟩
        cases verr with
        | some e => left; rfl
        | none =>
          simp only []
          rcases hE : createartist.EnsureArtistDoesNotExist
            (store.NewMongoStore injector.MongoInstance "gostream" "artists") newUUID w
            with ⟨eerr, w2⟩
          have hE2 := hE
          rw [EnsureArtistDoesNotExist_eq] at hE2
          have hw2 : w2.calls = w.calls ++ [store.Call.FindItems (filter newUUID)] := by
            rw [← (Prod.mk.inj hE2).2]
          cases eerr with
          | some e => right; left; exact hw2
          | none =>
            right; right
            simp only [store.createItem]
            refine ⟨injector,
              { ID := newUUID, Name := body2.Name, Genres := body2.Genres,
                Followers := body2.Followers,
                Stats := { Popularity := body2.Stats.Popularity } },
              rfl, ?_, rfl, by rw [hE]⟩
            generalize store.MongoStore.CreateItem _ _ _ = r
            obtain ⟨res, db⟩ := r
            cases res <;> simp [hw2]

/-- On the broken store the check hands back the error of the find. -/
theorem C4_existence_check_witness :
    (createartist.EnsureArtistDoesNotExist sample.brokenStore "b2" { db := () }).1 =
      some (GoError.external "connection refused") :=
  (C4_existence_check (fun _ => Except.ok sample.newArtist) "b2" {}
    (some sample.brokenInjector) sample.brokenStore "b2" { db := () }).2.2.1
    (GoError.external "connection refused") rfl

/-- Claim C5, evaluated where it fails. With a valid body and a store whose find
does not get through, the create handler answers 409 with the message
"artist already exists", after the find alone: the failure of the existence
check is reported as a conflict. -/
theorem C5_find_failure_reported_as_conflict :
    sample.brokenStore.FindItems
        { Root := some (query.IQuery.FilterOperatorEq "_id" (GoValue.string "b2")),
          Limit := 1 } () =
      (Except.error (GoError.external "connection refused"), ()) ∧
    (createartist.Handler (fun _ => Except.ok sample.newArtist) "b2" {}
        (some sample.brokenInjector) { db := () }).1 =
      { StatusCode := 409,
        Body := some (createartist.ResponseBody.errorBody
          { Message := "artist already exists" }) } ∧
    (createartist.Handler (fun _ => Except.ok sample.newArtist) "b2" {}
        (some sample.brokenInjector) { db := () }).2.calls =
      [store.Call.FindItems
        { Root := some (query.IQuery.FilterOperatorEq "_id" (GoValue.string "b2")),
          Limit := 1 }] :=
  ⟨rfl, rfl, rfl⟩

/-- Claim C6. The create validation returns nil exactly when the name is
non-empty after trimming and every genre is non-empty after trimming (so an
empty genres list passes). It returns the `name` error when the trimmed name
is empty, whatever the genres, and the `genres` error when the name is fine
and some genre trims to empty. The request body is left as it was. -/
theorem C6_create_validation (request : createartist.CreateArtistRequestBody) :
    ((createartist.ValidateRequestBody request).2 = none ↔
        (strings.TrimSpace request.Name ≠ "" ∧
          ∀ g ∈ request.Genres, strings.TrimSpace g ≠ "")) ∧
    (strings.TrimSpace request.Name = "" →
        (createartist.ValidateRequestBody request).2 =
          some { FieldRef := "name", ErrorMessage := "value must not be empty" }) ∧
    (strings.TrimSpace request.Name ≠ "" →
        (∃ g ∈ request.Genres, strings.TrimSpace g = "") →
        (createartist.ValidateRequestBody request).2 =
          some { FieldRef := "genres", ErrorMessage := "array value must not be empty" }) ∧
    (createartist.ValidateRequestBody request).1 = request := by
  rw [create_ValidateRequestBody_eq]
  refine ⟨?_, ?_, ?_, rfl⟩
  · by_cases hn : strings.TrimSpace request.Name = ""
    · simp [hn]
    · by_cases hg : ∃ g ∈ request.Genres, strings.TrimSpace g = ""
      · simp only [hn, hg, if_true, if_false]
        obtain ⟨g, hmem, hge⟩ := hg
        constructor
        · intro h; cases h
        · intro h; exact absurd hge (h.2 g hmem)
      · simp only [hn, hg, if_false]
        push_neg at hg
        exact ⟨fun _ => ⟨hn, hg⟩, fun _ => trivial⟩
  · intro hn; simp [hn]
  · intro hn hg; simp [hn, hg]

/-- A body whose name is made of white space only. -/
theorem C6_create_validation_witness :
    (createartist.ValidateRequestBody
        { Name := " \t", Genres := [""], Followers := 0,
          Stats := { Popularity := { bits := 0 } } }).2 =
      some { FieldRef := "name", ErrorMessage := "value must not be empty" } :=
  (C6_create_validation
    { Name := " \t", Genres := [""], Followers := 0,
      Stats := { Popularity := { bits := 0 } } }).2.1 (by decide)

/-- Claim C7. The update validation returns the `name` error exactly when the
name is non-empty and made of white space only; otherwise it returns the
`genres` error exactly when some genre is empty after trimming; otherwise it
returns nil. A body with an empty name and no genres is valid. -/
theorem C7_update_validation (request : updateartist.UpdateArtistRequestBody) :
    ((updateartist.ValidateRequestBody request).2 =
          some { FieldRef := "name", ErrorMessage := "value must not be empty" } ↔
        (request.Name ≠ "" ∧ ∀ c ∈ request.Name.data, unicode.IsSpace c = true)) ∧
    (¬ (request.Name ≠ "" ∧ ∀ c ∈ request.Name.data, unicode.IsSpace c = true) →
        ((updateartist.ValidateRequestBody request).2 =
            some { FieldRef := "genres", ErrorMessage := "array value must not be empty" } ↔
          ∃ g ∈ request.Genres, strings.TrimSpace g = "")) ∧
    (¬ (request.Name ≠ "" ∧ ∀ c ∈ request.Name.data, unicode.IsSpace c = true) →
        (¬ ∃ g ∈ request.Genres, strings.TrimSpace g = "") →
        (updateartist.ValidateRequestBody request).2 = none) ∧
    (request.Name = "" → request.Genres = [] →
        (updateartist.ValidateRequestBody request).2 = none) := by
  rw [update_ValidateRequestBody_eq, ← TrimSpace_eq_empty_iff]
  refine ⟨?_, ?_, ?_, ?_⟩
  · by_cases hn : request.Name ≠ "" ∧ strings.TrimSpace request.Name = ""
    · simp [hn]
    · by_cases hg : ∃ g ∈ request.Genres, strings.TrimSpace g = ""
      · simp only [hn, hg, if_true, if_false]
        constructor
        · intro h; simp at h
        · intro h; exact absurd h (fun h => h)
      · simp only [hn, hg, if_false]
        constructor
        · intro h; cases h
        · intro h; exact absurd h (fun h => h)
  · intro hn
    by_cases hg : ∃ g ∈ request.Genres, strings.TrimSpace g = ""
    · simp only [hn, hg, if_true, if_false]
    · simp only [hn, hg, if_false]
      constructor
      · intro h; cases h
      · intro h; exact absurd h (fun h => h)
  · intro hn hg; simp only [hn, hg, if_false]
  · intro hn hg; simp [hn, hg]

/-- The body that sets the followers only is valid. -/
theorem C7_update_validation_witness :
    (updateartist.ValidateRequestBody sample.followersOnly).2 = none :=
  (C7_update_validation sample.followersOnly).2.2.2 rfl rfl

/-- Claim C8. `GetAndValidateID` returns the `id` path parameter unchanged and no
error when `uuid.Parse` accepts it, and otherwise the empty string with the
error on `:id`, "value is not a valid uuid". With an invalid id and a valid
injector the update handler answers 400 with that error as body and leaves
the store and the log of store calls as they were. -/
theorem C8_invalid_id_rejected {σ : Type} (uuidParse : String → Option GoError)
    (Unmarshal : String → Except GoError updateartist.UpdateArtistRequestBody)
    (request : api.APIRequest) (injector : inject.Injector σ) (w : store.World σ) :
    (uuidParse (mapIndex request.PathParameters "id") = none →
      updateartist.GetAndValidateID uuidParse request =
        (mapIndex request.PathParameters "id", none)) ∧
    (uuidParse (mapIndex request.PathParameters "id") ≠ none →
      updateartist.GetAndValidateID uuidParse request =
        ("", some { PathRef := ":id", ErrorMessage := "value is not a valid uuid" })) ∧
    (uuidParse (mapIndex request.PathParameters "id") ≠ none →
      updateartist.Handler uuidParse Unmarshal request (some injector) w =
        (Outcome.returned
          { StatusCode := 400,
            Body := some (updateartist.ResponseBody.pathValidationError
              { PathRef := ":id", ErrorMessage := "value is not a valid uuid" }) }, w)) := by
  refine ⟨?_, ?_, ?_⟩
  · intro h; rw [GetAndValidateID_eq, if_pos h]
  · intro h; rw [GetAndValidateID_eq, if_neg h]
  · intro h
    unfold updateartist.Handler
    simp only [updateartist.GetSafeInjector, GetAndValidateID_eq, if_neg h]
    rfl

/-- A request whose id the parser rejects. -/
theorem C8_invalid_id_rejected_witness :
    updateartist.Handler sample.uuidParse (fun _ => Except.ok sample.followersOnly)
        (sample.requestFor "nope") (some sample.memoryInjector) { db := [sample.artistA] } =
      (Outcome.returned
        { StatusCode := 400,
          Body := some (updateartist.ResponseBody.pathValidationError
            { PathRef := ":id", ErrorMessage := "value is not a valid uuid" }) },
        { db := [sample.artistA] }) :=
  (C8_invalid_id_rejected sample.uuidParse (fun _ => Except.ok sample.followersOnly)
    (sample.requestFor "nope") sample.memoryInjector { db := [sample.artistA] }).2.2
    (by decide)

/-- Claim C9. With a valid injector the getartist handler issues one find, with
the filter of equality of `_id` with the `id` path parameter and limit 10. It
answers 500 when the find fails, 404 when the find succeeds with an empty
result, and otherwise 200 with the first item as body; it never panics on
`items[0]`. -/
theorem C9_getartist_responses {σ : Type} (request : api.APIRequest) (injector : inject.Injector σ)
    (w : store.World σ) :
    let filter : query.Filter :=
      { Root := some (query.IQuery.FilterOperatorEq "_id"
          (GoValue.string (mapIndex request.PathParameters "id"))), Limit := 10 }
    let found :=
      (store.NewMongoStore injector.MongoInstance "gostream" "artists").FindItems filter w.db
    let handled := getartist.Handler request (some injector) w
    handled.2.calls = w.calls ++ [store.Call.FindItems filter] ∧
    handled.2.db = found.2 ∧
    (∀ err, found.1 = Except.error err →
      handled.1 = Outcome.returned { StatusCode := 500, Body := none }) ∧
    (found.1 = Except.ok [] →
      handled.1 = Outcome.returned { StatusCode := 404, Body := none }) ∧
    (∀ item items, found.1 = Except.ok (item :: items) →
      handled.1 = Outcome.returned
        { StatusCode := 200, Body := some (getartist.ResponseBody.artist item) }) ∧
    (∀ msg, handled.1 ≠ Outcome.panicked msg) := by
  intro filter found handled
  have key : handled =
      ((match found.1 with
        | Except.error _ => Outcome.returned { StatusCode := 500, Body := none }
        | Except.ok [] => Outcome.returned { StatusCode := 404, Body := none }
        | Except.ok (item :: _) => Outcome.returned
            { StatusCode := 200, Body := some (getartist.ResponseBody.artist item) }),
       { db := found.2, calls := w.calls ++ [store.Call.FindItems filter] }) := by
    simp only [handled, found, filter]
    unfold getartist.Handler store.findItems
    simp only [getartist.GetSafeInjector]
    generalize store.MongoStore.FindItems _ _ _ = r
    obtain ⟨res, db⟩ := r
    cases res with
    | error e => rfl
    | ok items =>
      cases items with
      | nil => rfl
      | cons x xs => simp [http.StatusOK]
  rw [key]
  refine ⟨rfl, rfl, ?_, ?_, ?_, ?_⟩
  · intro err h; simp only [h]
  · intro h; simp only [h]
  · intro item items h; simp only [h]
  · intro msg
    dsimp only
    split <;> simp

/-- Looking up the stored artist `a1`. -/
theorem C9_getartist_responses_witness :
    (getartist.Handler (sample.requestFor "a1") (some sample.memoryInjector)
        { db := [sample.artistA] }).1 =
      Outcome.returned
        { StatusCode := 200, Body := some (getartist.ResponseBody.artist sample.artistA) } :=
  (C9_getartist_responses (sample.requestFor "a1") sample.memoryInjector
    { db := [sample.artistA] }).2.2.2.2.1 sample.artistA [] rfl

/-- Claim C10. In the update handler, once `UpdateItem` is reached, the answer is
204 whenever `UpdateItem` returns without error, whatever the count, zero or
positive; the answer is 500 exactly when `UpdateItem` returns an error. -/
theorem C10_update_success_status {σ : Type} (uuidParse : String → Option GoError)
    (Unmarshal : String → Except GoError updateartist.UpdateArtistRequestBody)
    (request : api.APIRequest) (injector : inject.Injector σ) (w : store.World σ)
    (a : models.ArtistInfo) (rest : List models.ArtistInfo)
    (b : updateartist.UpdateArtistRequestBody)
    (hid : uuidParse (mapIndex request.PathParameters "id") = none)
    (hfind : ((store.NewMongoStore injector.MongoInstance "gostream" "artists").FindItems
        { Root := some (query.IQuery.FilterOperatorEq "_id"
            (GoValue.string (mapIndex request.PathParameters "id"))), Limit := 1 } w.db).1
        = Except.ok (a :: rest))
    (hbody : Unmarshal request.Body = Except.ok b)
    (hvalid : (updateartist.ValidateRequestBody b).2 = none) :
    let s := store.NewMongoStore injector.MongoInstance "gostream" "artists"
    let id := mapIndex request.PathParameters "id"
    let findFilter : query.Filter :=
      { Root := some (query.IQuery.FilterOperatorEq "_id" (GoValue.string id)), Limit := 1 }
    let updateFilter : query.Filter :=
      { Root := some (query.IQuery.FilterOperatorEq "_id" (GoValue.string id)), Limit := 0 }
    let updateOperator : query.Update :=
      { Root := query.IUpdate.UpdateOperatorSet
          [("name", GoValue.string (if b.Name ≠ "" then b.Name else a.Name)),
           ("genres", GoValue.strings (if b.Genres.length > 0 then b.Genres else a.Genres)),
           ("followers", GoValue.uint32 (if b.Followers ≠ 0 then b.Followers else a.Followers)),
           ("stats.popularity", GoValue.float32
              (if b.Stats.Popularity.neZero = true then b.Stats.Popularity
               else a.Stats.Popularity))] }
    let updated := s.UpdateItem updateFilter updateOperator (s.FindItems findFilter w.db).2
    let handled := updateartist.Handler uuidParse Unmarshal request (some injector) w
    handled.2.calls = w.calls ++ [store.Call.FindItems findFilter,
      store.Call.UpdateItem updateFilter updateOperator] ∧
    (∀ count : Nat, updated.1 = Except.ok count →
      handled.1 = Outcome.returned { StatusCode := 204, Body := none }) ∧
    (∀ err : GoError, updated.1 = Except.error err →
      handled.1 = Outcome.returned { StatusCode := 500, Body := none }) ∧
    (handled.1 = Outcome.returned { StatusCode := 500, Body := none } ↔
      ∃ err, updated.1 = Except.error err) := by
  have h := update_Handler_reaches_update uuidParse Unmarshal request injector w a rest b
    hid hfind hbody hvalid
  dsimp only at h ⊢
  rw [h]
  refine ⟨rfl, ?_, ?_, ?_⟩
  · intro count hc; simp only [hc]; rfl
  · intro err hc; simp only [hc]; rfl
  · generalize store.MongoStore.UpdateItem _ _ _ _ = r
    obtain ⟨res, db⟩ := r
    cases res <;> simp [http.StatusInternalServerError, http.StatusNoContent]

/-- An update of the stored artist `a1` on the in-memory store. -/
theorem C10_update_success_status_witness :
    (updateartist.Handler sample.uuidParse (fun _ => Except.ok sample.followersOnly)
        (sample.requestFor "a1") (some sample.memoryInjector)
        { db := [sample.artistA] }).1 =
      Outcome.returned { StatusCode := 204, Body := none } :=
  (C10_update_success_status sample.uuidParse (fun _ => Except.ok sample.followersOnly)
    (sample.requestFor "a1") sample.memoryInjector { db := [sample.artistA] }
    sample.artistA [] sample.followersOnly (by decide) rfl rfl (by decide)).2.1 1 rfl

/-- Claim C11. With a valid injector the delete handler issues one `DeleteItem`
with the `id` path parameter. It answers 500 exactly when `DeleteItem` returns
an error, 204 when it succeeds with a count of 0 and 202 when it succeeds with
a positive count; a zero count is not an error. -/
theorem C11_delete_responses {σ : Type} (request : api.APIRequest) (injector : inject.Injector σ)
    (w : store.World σ) :
    let id := mapIndex request.PathParameters "id"
    let deleted :=
      (store.NewMongoStore injector.MongoInstance "gostream" "artists").DeleteItem id w.db
    let handled := deleteartist.Handler request (some injector) w
    handled.2.calls = w.calls ++ [store.Call.DeleteItem id] ∧
    handled.2.db = deleted.2 ∧
    (handled.1.StatusCode = 500 ↔ ∃ err, deleted.1 = Except.error err) ∧
    (deleted.1 = Except.ok 0 → handled.1 = { StatusCode := 204, Body := none }) ∧
    (∀ count : Nat, 0 < count → deleted.1 = Except.ok count →
      handled.1 = { StatusCode := 202, Body := none }) := by
  intro id deleted handled
  simp only [handled, deleted, id, delete_Handler_eq]
  refine ⟨trivial, trivial, ?_, ?_, ?_⟩
  · generalize store.MongoStore.DeleteItem _ _ _ = r
    obtain ⟨res, db⟩ := r
    cases res with
    | error e => simp
    | ok count => cases count <;> simp
  · intro h; simp only [h]
  · intro count hpos h
    simp only [h]
    cases count with
    | zero => omega
    | succ n => rfl

/-- Deleting the stored artist `a1` from the in-memory store. -/
theorem C11_delete_responses_witness :
    (deleteartist.Handler (sample.requestFor "a1") (some sample.memoryInjector)
        { db := [sample.artistA] }).1 = { StatusCode := 202, Body := none } :=
  (C11_delete_responses (sample.requestFor "a1") sample.memoryInjector
    { db := [sample.artistA] }).2.2.2.2 1 (by decide) rfl

/-- Claim C12. Whatever integer `N` the `limit` parameter parses to, the filter
is built and its limit is `N` modulo `2 ^ 32`: `-1` gives 4294967295 and
`4294967296` gives 0, the unrestricted query. -/
theorem C12_limit_wraps (request : api.APIRequest) :
    (∀ (s : String) (N : Int), request.QueryParameters "limit" = some s →
        strconv.Atoi s = (N, none) →
        ((getartists.CreateFilterFromQueryParameters request).Limit : Int) = N % 2 ^ 32) ∧
    (request.QueryParameters "limit" = some "-1" →
        (getartists.CreateFilterFromQueryParameters request).Limit = 4294967295) ∧
    (request.QueryParameters "limit" = some "4294967296" →
        (getartists.CreateFilterFromQueryParameters request).Limit = 0) := by
  refine ⟨?_, ?_, ?_⟩
  · intro s N h hA
    rw [CreateFilter_limit, h]
    simp only [hA, if_true, strconv.toUint32]
    exact Int.toNat_of_nonneg (Int.emod_nonneg _ (by norm_num))
  · intro h
    rw [CreateFilter_limit, h]
    decide
  · intro h
    rw [CreateFilter_limit, h]
    decide

/-- A request with `limit` -1. -/
theorem C12_limit_wraps_witness :
    (getartists.CreateFilterFromQueryParameters
        (sample.listRequest (some "-1") none)).Limit = 4294967295 :=
  (C12_limit_wraps (sample.listRequest (some "-1") none)).2.1 rfl

/-- Claim C13. In the update handler the filter passed to `UpdateItem` is the
equality of `_id` with the validated `id` path parameter, the same id as in
the preceding lookup, and its limit is 0. -/
theorem C13_update_filter {σ : Type} (uuidParse : String → Option GoError)
    (Unmarshal : String → Except GoError updateartist.UpdateArtistRequestBody)
    (request : api.APIRequest) (injector : inject.Injector σ) (w : store.World σ)
    (a : models.ArtistInfo) (rest : List models.ArtistInfo)
    (b : updateartist.UpdateArtistRequestBody)
    (hid : uuidParse (mapIndex request.PathParameters "id") = none)
    (hfind : ((store.NewMongoStore injector.MongoInstance "gostream" "artists").FindItems
        { Root := some (query.IQuery.FilterOperatorEq "_id"
            (GoValue.string (mapIndex request.PathParameters "id"))), Limit := 1 } w.db).1
        = Except.ok (a :: rest))
    (hbody : Unmarshal request.Body = Except.ok b)
    (hvalid : (updateartist.ValidateRequestBody b).2 = none) :
    ∃ (id : String) (updateOperator : query.Update),
      updateartist.GetAndValidateID uuidParse request = (id, none) ∧
      id = mapIndex request.PathParameters "id" ∧
      (updateartist.Handler uuidParse Unmarshal request (some injector) w).2.calls =
        w.calls ++
          [store.Call.FindItems
            { Root := some (query.IQuery.FilterOperatorEq "_id" (GoValue.string id)),
              Limit := 1 },
           store.Call.UpdateItem
            { Root := some (query.IQuery.FilterOperatorEq "_id" (GoValue.string id)),
              Limit := 0 }
            updateOperator] := by
  have h := update_Handler_reaches_update uuidParse Unmarshal request injector w a rest b
    hid hfind hbody hvalid
  dsimp only at h
  refine ⟨mapIndex request.PathParameters "id",
    { Root := query.IUpdate.UpdateOperatorSet
        [("name", GoValue.string (if b.Name ≠ "" then b.Name else a.Name)),
         ("genres", GoValue.strings (if b.Genres.length > 0 then b.Genres else a.Genres)),
         ("followers", GoValue.uint32 (if b.Followers ≠ 0 then b.Followers else a.Followers)),
         ("stats.popularity", GoValue.float32
            (if b.Stats.Popularity.neZero = true then b.Stats.Popularity
             else a.Stats.Popularity))] },
    ?_, rfl, ?_⟩
  · rw [GetAndValidateID_eq, if_pos hid]
  · rw [h]

/-- The update of the stored artist `a1` with the followers-only body. -/
theorem C13_update_filter_witness :
    ∃ updateOperator : query.Update,
      (updateartist.Handler sample.uuidParse (fun _ => Except.ok sample.followersOnly)
          (sample.requestFor "a1") (some sample.memoryInjector)
          { db := [sample.artistA] }).2.calls =
        [store.Call.FindItems
          { Root := some (query.IQuery.FilterOperatorEq "_id" (GoValue.string "a1")),
            Limit := 1 },
         store.Call.UpdateItem
          { Root := some (query.IQuery.FilterOperatorEq "_id" (GoValue.string "a1")),
            Limit := 0 }
          updateOperator] := by
  obtain ⟨id, op, _, hidEq, hcalls⟩ :=
    C13_update_filter sample.uuidParse (fun _ => Except.ok sample.followersOnly)
      (sample.requestFor "a1") sample.memoryInjector { db := [sample.artistA] }
      sample.artistA [] sample.followersOnly (by decide) rfl rfl (by decide)
  subst hidEq
  exact ⟨op, hcalls⟩

/-- Claim C14. For a create body that passes validation and an id that the
existence check does not find, the entity passed to `CreateItem` has the
generated id, the one that was checked, and the name, genres, followers and
popularity of the raw body. When `CreateItem` succeeds the answer is 200 with
that entity as body; when it fails the answer is 500. -/
theorem C14_created_entity {σ : Type}
    (Unmarshal : String → Except GoError createartist.CreateArtistRequestBody)
    (newUUID : String) (request : api.APIRequest) (injector : inject.Injector σ)
    (w : store.World σ) (body : createartist.CreateArtistRequestBody)
    (hbody : Unmarshal request.Body = Except.ok body)
    (hvalid : (createartist.ValidateRequestBody body).2 = none)
    (hfind : ((store.NewMongoStore injector.MongoInstance "gostream" "artists").FindItems
        { Root := some (query.IQuery.FilterOperatorEq "_id" (GoValue.string newUUID)),
          Limit := 1 } w.db).1 = Except.ok []) :
    let s := store.NewMongoStore injector.MongoInstance "gostream" "artists"
    let filter : query.Filter :=
      { Root := some (query.IQuery.FilterOperatorEq "_id" (GoValue.string newUUID)),
        Limit := 1 }
    let artist : models.ArtistInfo :=
      { ID := newUUID, Name := body.Name, Genres := body.Genres,
        Followers := body.Followers, Stats := { Popularity := body.Stats.Popularity } }
    let created := s.CreateItem artist (s.FindItems filter w.db).2
    let handled := createartist.Handler Unmarshal newUUID request (some injector) w
    handled.2.calls =
      w.calls ++ [store.Call.FindItems filter, store.Call.CreateItem artist] ∧
    (created.1 = none →
      handled.1 =
        { StatusCode := 200, Body := some (createartist.ResponseBody.artist artist) }) ∧
    (∀ err, created.1 = some err → handled.1 = { StatusCode := 500, Body := none }) := by
  have h := create_Handler_reaches_create Unmarshal newUUID request injector w body
    hbody hvalid hfind
  dsimp only at h ⊢
  rw [h]
  refine ⟨rfl, ?_, ?_⟩
  · intro hc; simp only [hc]
  · intro err hc; simp only [hc]

/-- Creating a new artist in the empty in-memory store. -/
theorem C14_created_entity_witness :
    (createartist.Handler (fun _ => Except.ok sample.newArtist) "b2" {}
        (some sample.memoryInjector) { db := [] }).1 =
      { StatusCode := 200,
        Body := some (createartist.ResponseBody.artist
          { ID := "b2", Name := "Artist B", Genres := ["jazz"], Followers := 0,
            Stats := { Popularity := { bits := 0 } } }) } :=
  (C14_created_entity (fun _ => Except.ok sample.newArtist) "b2" {} sample.memoryInjector
    { db := [] } sample.newArtist rfl (by decide) rfl).2.1 rfl

/-- Claim C15. `FindArtistByID` returns the first found item exactly when the find
succeeds with a non-empty result, returns an error on an empty result and on
a failed find, and never panics on `items[0]`. Whatever error it returns, the
update handler answers 404 after the find alone, with no `UpdateItem`, and
the answer does not depend on how the body would parse. -/
theorem C15_lookup_failure_not_found {σ : Type} (uuidParse : String → Option GoError)
    (Unmarshal : String → Except GoError updateartist.UpdateArtistRequestBody)
    (request : api.APIRequest) (injector : inject.Injector σ) (w : store.World σ)
    (hid : uuidParse (mapIndex request.PathParameters "id") = none) :
    let s := store.NewMongoStore injector.MongoInstance "gostream" "artists"
    let id := mapIndex request.PathParameters "id"
    let filter : query.Filter :=
      { Root := some (query.IQuery.FilterOperatorEq "_id" (GoValue.string id)), Limit := 1 }
    let found := s.FindItems filter w.db
    let looked := updateartist.FindArtistByID s id w
    (∀ item, looked.1 = Outcome.returned (Except.ok item) ↔
      ∃ items, found.1 = Except.ok (item :: items)) ∧
    (found.1 = Except.ok [] →
      looked.1 = Outcome.returned (Except.error (GoError.Errorf "update: track not found"))) ∧
    (∀ err, found.1 = Except.error err →
      looked.1 = Outcome.returned (Except.error err)) ∧
    (∀ msg, looked.1 ≠ Outcome.panicked msg) ∧
    looked.2 = { db := found.2, calls := w.calls ++ [store.Call.FindItems filter] } ∧
    (∀ err, looked.1 = Outcome.returned (Except.error err) →
      updateartist.Handler uuidParse Unmarshal request (some injector) w =
        (Outcome.returned { StatusCode := 404, Body := none },
         { db := found.2, calls := w.calls ++ [store.Call.FindItems filter] }) ∧
      ∀ other : String → Except GoError updateartist.UpdateArtistRequestBody,
        updateartist.Handler uuidParse other request (some injector) w =
          updateartist.Handler uuidParse Unmarshal request (some injector) w) := by
  intro s id filter found looked
  have key : ∀ U : String → Except GoError updateartist.UpdateArtistRequestBody,
      ∀ err, looked.1 = Outcome.returned (Except.error err) →
      updateartist.Handler uuidParse U request (some injector) w =
        (Outcome.returned { StatusCode := 404, Body := none },
         { db := found.2, calls := w.calls ++ [store.Call.FindItems filter] }) := by
    intro U err hl
    unfold updateartist.Handler
    simp only [updateartist.GetSafeInjector, GetAndValidateID_eq, if_pos hid]
    simp only [looked, s, id] at hl
    rw [FindArtistByID_eq] at hl ⊢
    simp only [] at hl
    simp only [hl]
    rfl
  simp only [looked, FindArtistByID_eq] at key ⊢
  refine ⟨?_, ?_, ?_, ?_, trivial, ?_⟩
  · intro item
    simp only [found, filter, s, id]
    generalize store.MongoStore.FindItems _ _ _ = r
    obtain ⟨res, db⟩ := r
    cases res with
    | error e => simp
    | ok items => cases items <;> simp
  · intro h; simp only [found, filter] at h; simp only [h]
  · intro err h; simp only [found, filter] at h; simp only [h]
  · intro msg
    split <;> simp
  · intro err hl
    exact ⟨key Unmarshal err hl, fun other => (key other err hl).trans (key Unmarshal err hl).symm⟩

/-- Updating an id that the in-memory store does not hold. -/
theorem C15_lookup_failure_not_found_witness :
    updateartist.Handler sample.uuidParse (fun _ => Except.ok sample.followersOnly)
        (sample.requestFor "a1") (some sample.memoryInjector) { db := [] } =
      (Outcome.returned { StatusCode := 404, Body := none },
       { db := [],
         calls := [store.Call.FindItems
           { Root := some (query.IQuery.FilterOperatorEq "_id" (GoValue.string "a1")),
             Limit := 1 }] }) :=
  ((C15_lookup_failure_not_found sample.uuidParse (fun _ => Except.ok sample.followersOnly)
    (sample.requestFor "a1") sample.memoryInjector { db := [] } (by decide)).2.2.2.2.2
    (GoError.Errorf "update: track not found") rfl).1

end Artists
